import Mathlib

set_option maxHeartbeats 1000000

/-!
Verification of the document-understanding pipeline of the strategy-planning
repository.  Python strings are modeled as lists of characters; machine
integers as `Int`/`Nat`; the floating-point TF-IDF arithmetic of the
document Q&A path is modeled over the reals.  Python regex classes are
modeled over the ASCII range that the pipeline's own text cleaning
produces (the extractor folds non-ASCII to spaces upstream).
-/

/-- A Python string literal as a list of characters. -/
def pstr (s : String) : List Char := s.data

/-- Python whitespace (`str.isspace` / regex class backslash-s):
tab..carriage return, the four ASCII separators 28..31, space, next line,
no-break space, and the Unicode space separators. -/
def isPySpace (c : Char) : Bool :=
  (9 ≤ c.toNat && c.toNat ≤ 13) || (28 ≤ c.toNat && c.toNat ≤ 31) ||
  c.toNat = 32 || c.toNat = 133 || c.toNat = 160 || c.toNat = 0x1680 ||
  (0x2000 ≤ c.toNat && c.toNat ≤ 0x200A) || c.toNat = 0x2028 ||
  c.toNat = 0x2029 || c.toNat = 0x202F || c.toNat = 0x205F || c.toNat = 0x3000

/-- Python regex word character (ASCII part): letters, digits, underscore. -/
def isWordChar (c : Char) : Bool :=
  c.isAlphanum || c = '_'

/-- Replace every maximal run of characters satisfying `p` by the single
character `rep`; models `re.sub(r'P+', rep, s)` for a character class `P`. -/
def collapseAux (p : Char → Bool) (rep : Char) : Bool → List Char → List Char
  | _, [] => []
  | inRun, c :: cs =>
      if p c then
        if inRun then collapseAux p rep true cs
        else rep :: collapseAux p rep true cs
      else c :: collapseAux p rep false cs

/-- Collapse runs, starting outside a run. -/
def collapseRuns (p : Char → Bool) (rep : Char) (l : List Char) : List Char :=
  collapseAux p rep false l

/-- Python `str.strip()`: drop leading and trailing whitespace. -/
def pyStrip (l : List Char) : List Char :=
  ((l.dropWhile isPySpace).reverse.dropWhile isPySpace).reverse

/-- `text_extractor.clean_text`: remove U+200B, turn U+00A0 into a space,
collapse whitespace runs to one space, replace runs of non-ASCII
characters by one space, then strip. -/
def clean_text (t : List Char) : List Char :=
  let t1 := t.filter (fun c => decide (c ≠ '​'))
  let t2 := t1.map (fun c => if c = ' ' then ' ' else c)
  let t3 := collapseRuns isPySpace ' ' t2
  let t4 := collapseRuns (fun c => decide (127 < c.toNat)) ' ' t3
  pyStrip t4

/-! ## strategy_generator -/

/-- The four SWOT category lists. -/
structure Swot where
  strengths : List (List Char)
  weaknesses : List (List Char)
  opportunities : List (List Char)
  threats : List (List Char)
deriving DecidableEq

/-- Result of `calculate_strategic_scores`. -/
structure ScoreCard where
  readiness : Int
  readiness_label : List Char
  risk : Int
  risk_label : List Char
  focus : List Char
deriving DecidableEq

/-- Python `str.title()` over ASCII: a cased character is uppercased when
the previous character is not cased, lowercased otherwise. -/
def titleAux : Bool → List Char → List Char
  | _, [] => []
  | prevCased, c :: cs =>
      let cased := c.isAlpha
      (if cased then (if prevCased then c.toLower else c.toUpper) else c)
        :: titleAux cased cs

/-- Python `str.title()`. -/
def pyTitle (l : List Char) : List Char := titleAux false l

/-- Python `str.replace(a, b)` for single characters. -/
def replaceChar (a b : Char) (l : List Char) : List Char :=
  l.map (fun c => if c = a then b else c)

/-- `strategy_generator.calculate_strategic_scores`. -/
def calculate_strategic_scores (swot : Swot) (intents : List (List Char)) :
    ScoreCard :=
  let s_count : Int := swot.strengths.length
  let w_count : Int := swot.weaknesses.length
  let o_count : Int := swot.opportunities.length
  let t_count : Int := swot.threats.length
  let readiness :=
    max 10 (min (50 + s_count * 10 + o_count * 5 - w_count * 5 - t_count * 2) 98)
  let risk_score := max 5 (min (t_count * 15 + w_count * 5) 95)
  let risk_label :=
    if risk_score < 30 then pstr "Low"
    else if risk_score < 60 then pstr "Medium"
    else pstr "Critical"
  let readiness_label :=
    if 75 < readiness then pstr "Strong"
    else if 50 < readiness then pstr "Moderate"
    else pstr "Needs Improvement"
  let focus :=
    match intents with
    | [] => pstr "General Strategy"
    | i :: _ => pyTitle (replaceChar '_' ' ' i)
  { readiness := readiness, readiness_label := readiness_label,
    risk := risk_score, risk_label := risk_label, focus := focus }

/-- Input of `simulate_scenario`: the two base scores it reads. -/
structure BaseScores where
  readiness : Int
  risk : Int
deriving DecidableEq

/-- Result dictionary of `simulate_scenario`; `focus` and `explanation`
are `Option` because the unknown-scenario path never sets those keys. -/
structure SimResult where
  readiness : Int
  risk : Int
  revenue : Int
  cost_efficiency : Int
  stability : Int
  focus : Option (List Char)
  explanation : Option (List Char)
  confidence : Int
deriving DecidableEq

/-- The clamp applied to every metric of a simulated scenario. -/
def clamp598 (x : Int) : Int := max 5 (min x 98)

/-- Fixed explanation of the growth scenario. -/
def growthExpl : List Char :=
  pstr "Prioritizing growth will maximize revenue potential but significantly increase risk exposure and operational costs due to aggressive expansion."

/-- Fixed explanation of the cost scenario. -/
def costExpl : List Char :=
  pstr "Focusing on cost reduction will drastically improve margins and stability, but may slow down market capture and revenue growth."

/-- Fixed explanation of the risk scenario. -/
def riskExpl : List Char :=
  pstr "A defensive strategy ensures maximum compliance and stability, protecting the business from external threats at the cost of rapid expansion."

/-- `strategy_generator.simulate_scenario`: start from the document's real
readiness and risk plus baselines of 50, apply the per-scenario deltas and
overrides, clamp the five metrics to [5, 98], attach confidence 85.  A tag
other than growth/cost/risk matches no branch, so that path keeps the
baselines and sets neither focus nor explanation. -/
def simulate_scenario (base : BaseScores) (scenario_type : List Char) :
    SimResult :=
  if scenario_type = pstr "growth" then
    { readiness := clamp598 (base.readiness + 10),
      risk := clamp598 (base.risk + 20),
      revenue := clamp598 85, cost_efficiency := clamp598 40,
      stability := clamp598 45,
      focus := some (pstr "Market Expansion"),
      explanation := some growthExpl, confidence := 85 }
  else if scenario_type = pstr "cost" then
    { readiness := clamp598 (base.readiness - 5),
      risk := clamp598 (base.risk - 15),
      revenue := clamp598 45, cost_efficiency := clamp598 90,
      stability := clamp598 75,
      focus := some (pstr "Operational Efficiency"),
      explanation := some costExpl, confidence := 85 }
  else if scenario_type = pstr "risk" then
    { readiness := clamp598 (base.readiness - 10),
      risk := clamp598 (base.risk - 30),
      revenue := clamp598 40, cost_efficiency := clamp598 60,
      stability := clamp598 95,
      focus := some (pstr "Risk Mitigation"),
      explanation := some riskExpl, confidence := 85 }
  else
    { readiness := clamp598 base.readiness,
      risk := clamp598 base.risk,
      revenue := clamp598 50, cost_efficiency := clamp598 50,
      stability := clamp598 50,
      focus := none, explanation := none, confidence := 85 }

/-- One row of an action plan. -/
structure PlanItem where
  strategy : List Char
  action : List Char
  timeline : List Char
deriving DecidableEq

/-- The constant timeline string of `strategy_generator.generate_action_plan`
(the source file holds these exact mojibake bytes). -/
def sgTimeline : List Char := pstr "3â€“6 months"

namespace SG

/-- `strategy_generator.generate_action_plan`: one row per strategy, every
row with the same constant timeline string. -/
def generate_action_plan (strategies : List (List Char)) : List PlanItem :=
  strategies.map (fun s =>
    { strategy := s,
      action := pstr "Implement initiative for " ++ s,
      timeline := sgTimeline })

end SG

/-! ## nlp_processor -/

/-- Python `str.lower()` over ASCII. -/
def toLowerStr (l : List Char) : List Char := l.map Char.toLower

/-- Whether `hay` starts with `needle`. -/
def leadEq : List Char → List Char → Bool
  | [], _ => true
  | _ :: _, [] => false
  | a :: as, b :: bs => a = b && leadEq as bs

/-- Python substring test `needle in hay`. -/
def containsSub (needle hay : List Char) : Bool :=
  match hay with
  | [] => needle.isEmpty
  | _ :: t => leadEq needle hay || containsSub needle t

/-- Maximal runs of characters satisfying `p`, dropping separators;
accumulator carries the current run reversed. -/
def splitRunsAux (p : Char → Bool) : List Char → List Char → List (List Char)
  | acc, [] => if acc.isEmpty then [] else [acc.reverse]
  | acc, c :: cs =>
      if p c then splitRunsAux p (c :: acc) cs
      else if acc.isEmpty then splitRunsAux p [] cs
      else acc.reverse :: splitRunsAux p [] cs

/-- Maximal runs of characters satisfying `p`. -/
def splitRuns (p : Char → Bool) (l : List Char) : List (List Char) :=
  splitRunsAux p [] l

/-- Python `str.split()` with no argument: whitespace-separated words. -/
def pySplit (l : List Char) : List (List Char) :=
  splitRuns (fun c => !(isPySpace c)) l

/-- Keys of a Python dict/Counter built from a list: first occurrences,
in insertion order. -/
def firstKeysAux [DecidableEq α] (seen : List α) : List α → List α
  | [] => []
  | x :: xs =>
      if x ∈ seen then firstKeysAux seen xs
      else x :: firstKeysAux (x :: seen) xs

/-- Distinct elements of a list, first occurrences first. -/
def firstKeys [DecidableEq α] (l : List α) : List α := firstKeysAux [] l

/-- Number of occurrences of `a` in `l`. -/
def countOcc [DecidableEq α] (a : α) (l : List α) : ℕ :=
  (l.filter (fun x => decide (x = a))).length

/-- Key-count pairs of `collections.Counter(l)`, in insertion order. -/
def countsOf [DecidableEq α] (l : List α) : List (α × ℕ) :=
  (firstKeys l).map (fun k => (k, countOcc k l))

/-- Stable insertion placing `a` before the first strictly smaller key. -/
def insertDesc (k : α → ℕ) (a : α) : List α → List α
  | [] => [a]
  | b :: bs => if k b < k a then a :: b :: bs else b :: insertDesc k a bs

/-- Stable sort by descending key, as `heapq.nlargest` orders items. -/
def sortDesc (k : α → ℕ) (l : List α) : List α := l.foldr (insertDesc k) []

/-- `Counter.most_common(n)`: the `n` highest-count key-count pairs in
descending count order (stable on ties). -/
def mostCommon [DecidableEq α] (l : List α) (n : ℕ) : List (α × ℕ) :=
  (sortDesc (fun p => p.2) (countsOf l)).take n

/-- `nltk.bigrams`: consecutive pairs. -/
def pairsOf : List α → List (α × α)
  | [] => []
  | [_] => []
  | a :: b :: t => (a, b) :: pairsOf (b :: t)

/-- The NLTK english stop-word list used by `nlp_processor`. -/
def nltkStops : List (List Char) :=
  [pstr "i", pstr "me", pstr "my", pstr "myself", pstr "we", pstr "our",
   pstr "ours", pstr "ourselves", pstr "you", pstr "you\x27re",
   pstr "you\x27ve", pstr "you\x27ll", pstr "you\x27d", pstr "your",
   pstr "yours", pstr "yourself", pstr "yourselves", pstr "he", pstr "him",
   pstr "his", pstr "himself", pstr "she", pstr "she\x27s", pstr "her",
   pstr "hers", pstr "herself", pstr "it", pstr "it\x27s", pstr "its",
   pstr "itself", pstr "they", pstr "them", pstr "their", pstr "theirs",
   pstr "themselves", pstr "what", pstr "which", pstr "who", pstr "whom",
   pstr "this", pstr "that", pstr "that\x27ll", pstr "these", pstr "those",
   pstr "am", pstr "is", pstr "are", pstr "was", pstr "were", pstr "be",
   pstr "been", pstr "being", pstr "have", pstr "has", pstr "had",
   pstr "having", pstr "do", pstr "does", pstr "did", pstr "doing",
   pstr "a", pstr "an", pstr "the", pstr "and", pstr "but", pstr "if",
   pstr "or", pstr "because", pstr "as", pstr "until", pstr "while",
   pstr "of", pstr "at", pstr "by", pstr "for", pstr "with", pstr "about",
   pstr "against", pstr "between", pstr "into", pstr "through",
   pstr "during", pstr "before", pstr "after", pstr "above", pstr "below",
   pstr "to", pstr "from", pstr "up", pstr "down", pstr "in", pstr "out",
   pstr "on", pstr "off", pstr "over", pstr "under", pstr "again",
   pstr "further", pstr "then", pstr "once", pstr "here", pstr "there",
   pstr "when", pstr "where", pstr "why", pstr "how", pstr "all",
   pstr "any", pstr "both", pstr "each", pstr "few", pstr "more",
   pstr "most", pstr "other", pstr "some", pstr "such", pstr "no",
   pstr "nor", pstr "not", pstr "only", pstr "own", pstr "same",
   pstr "so", pstr "than", pstr "too", pstr "very", pstr "s", pstr "t",
   pstr "can", pstr "will", pstr "just", pstr "don", pstr "don\x27t",
   pstr "should", pstr "should\x27ve", pstr "now", pstr "d", pstr "ll",
   pstr "m", pstr "o", pstr "re", pstr "ve", pstr "y", pstr "ain",
   pstr "aren", pstr "aren\x27t", pstr "couldn", pstr "couldn\x27t",
   pstr "didn", pstr "didn\x27t", pstr "doesn", pstr "doesn\x27t",
   pstr "hadn", pstr "hadn\x27t", pstr "hasn", pstr "hasn\x27t",
   pstr "haven", pstr "haven\x27t", pstr "isn", pstr "isn\x27t",
   pstr "ma", pstr "mightn", pstr "mightn\x27t", pstr "mustn",
   pstr "mustn\x27t", pstr "needn", pstr "needn\x27t", pstr "shan",
   pstr "shan\x27t", pstr "shouldn", pstr "shouldn\x27t", pstr "wasn",
   pstr "wasn\x27t", pstr "weren", pstr "weren\x27t", pstr "won",
   pstr "won\x27t", pstr "wouldn", pstr "wouldn\x27t"]

/-- Python `str.isalnum()` over ASCII: nonempty and all alphanumeric. -/
def isAlnumStr (w : List Char) : Bool :=
  !w.isEmpty && w.all Char.isAlphanum

/-- The filtered, lowercased token list of `extract_key_phrases`:
`[w.lower() for w in word_tokenize(text) if w.isalnum() and w.lower() not
in stop_words]`.  The NLTK `word_tokenize` is an external library call, so
the embedding starts from its output `raw`. -/
def keyTokens (raw : List (List Char)) : List (List Char) :=
  (raw.filter (fun w => isAlnumStr w &&
    decide (toLowerStr w ∉ nltkStops))).map toLowerStr

/-- The single-term part of `extract_key_phrases`:
`[w[0] for w in counter.most_common(top_n // 2)]`. -/
def kpSingles (raw : List (List Char)) (top_n : ℕ) : List (List Char) :=
  (mostCommon (keyTokens raw) (top_n / 2)).map Prod.fst

/-- The bigram part, as pairs:
`bigram_counter.most_common(top_n // 2)` keys. -/
def kpBigramPairs (raw : List (List Char)) (top_n : ℕ) :
    List (List Char × List Char) :=
  (mostCommon (pairsOf (keyTokens raw)) (top_n / 2)).map Prod.fst

/-- The bigram part as space-joined strings. -/
def kpBigramStrs (raw : List (List Char)) (top_n : ℕ) : List (List Char) :=
  (kpBigramPairs raw top_n).map (fun p => p.1 ++ ' ' :: p.2)

/-- `nlp_processor.extract_key_phrases`: most common single terms
followed by most common bigrams. -/
def extract_key_phrases (raw : List (List Char)) (top_n : ℕ) :
    List (List Char) :=
  kpSingles raw top_n ++ kpBigramStrs raw top_n

/-- Strength items accepted by keyword matching in `generate_swot`. -/
def swotStrengthsRaw (t : List Char) : List (List Char) :=
  (if containsSub (pstr "brand") t || containsSub (pstr "leader") t then
    [pstr "Strong market brand presence"] else []) ++
  (if containsSub (pstr "cash") t || containsSub (pstr "profit") t then
    [pstr "Solid financial footing"] else []) ++
  (if containsSub (pstr "technology") t then
    [pstr "Advanced technology stack"] else [])

/-- Weakness items accepted by keyword matching in `generate_swot`. -/
def swotWeaknessesRaw (t : List Char) : List (List Char) :=
  (if containsSub (pstr "debt") t || containsSub (pstr "cost") t then
    [pstr "High operational costs"] else []) ++
  (if containsSub (pstr "gap") t || containsSub (pstr "slow") t then
    [pstr "Slow time-to-market"] else [])

/-- Opportunity items accepted by keyword matching in `generate_swot`. -/
def swotOpportunitiesRaw (t : List Char) : List (List Char) :=
  (if containsSub (pstr "emerging") t || containsSub (pstr "global") t then
    [pstr "Expansion into emerging markets"] else []) ++
  (if containsSub (pstr "acquisition") t || containsSub (pstr "partner") t then
    [pstr "Strategic partnerships"] else [])

/-- Threat items accepted by keyword matching in `generate_swot`. -/
def swotThreatsRaw (t : List Char) : List (List Char) :=
  (if containsSub (pstr "competitor") t || containsSub (pstr "rival") t then
    [pstr "Intense competitive pressure"] else []) ++
  (if containsSub (pstr "regulation") t || containsSub (pstr "law") t then
    [pstr "Regulatory compliance risks"] else [])

/-- Fallback default list substituted for an empty category. -/
def swotFallback (l d : List (List Char)) : List (List Char) :=
  if l = [] then d else l

/-- The default strength list of `generate_swot`. -/
def defaultStrengths : List (List Char) :=
  [pstr "Operational Resilience", pstr "Experienced Leadership"]

/-- The default weakness list of `generate_swot`. -/
def defaultWeaknesses : List (List Char) :=
  [pstr "Resource Constraints", pstr "Legacy Systems"]

/-- The default opportunity list of `generate_swot`. -/
def defaultOpportunities : List (List Char) :=
  [pstr "Digital Transformation", pstr "New Product Lines"]

/-- The default threat list of `generate_swot`. -/
def defaultThreats : List (List Char) :=
  [pstr "Market Volatility", pstr "Cybersecurity Threats"]

/-- `nlp_processor.generate_swot`: lowercase the text, accept canned items
per matched keyword, then substitute the two-item default list for every
category that stayed empty. -/
def generate_swot (text : List Char) : Swot :=
  let t := toLowerStr text
  { strengths := swotFallback (swotStrengthsRaw t) defaultStrengths,
    weaknesses := swotFallback (swotWeaknessesRaw t) defaultWeaknesses,
    opportunities := swotFallback (swotOpportunitiesRaw t) defaultOpportunities,
    threats := swotFallback (swotThreatsRaw t) defaultThreats }

/-- The three-element timeline rotation of
`nlp_processor.generate_action_plan`. -/
def nlpTimelines : List (List Char) :=
  [pstr "Immediate (0-3 Months)", pstr "Short Term (3-6 Months)",
   pstr "Long Term (6-12 Months)"]

/-- Action text of `nlp_processor.generate_action_plan`:
`f"Initiate project team and allocate budget for {strat.split()[0].lower()}
phase."`.  `strat.split()[0]` raises IndexError on an empty or
whitespace-only strategy string, so the action is `Option`-valued and
`none` exactly there. -/
def nlpAction (strat : List Char) : Option (List Char) :=
  ((pySplit strat).head?).map (fun w =>
    pstr "Initiate project team and allocate budget for " ++
      toLowerStr w ++ pstr " phase.")

/-- Sequence a list of optional values: the first failure aborts the
whole computation, as an exception aborts a Python list comprehension. -/
def sequenceOpt : List (Option α) → Option (List α)
  | [] => some []
  | none :: _ => none
  | some x :: xs => (sequenceOpt xs).map (fun l => x :: l)

namespace NLP

/-- One row of `nlp_processor.generate_action_plan` at position `i`;
fails when the action text fails. -/
def planRow (i : ℕ) (s : List Char) : Option PlanItem :=
  (nlpAction s).map (fun a =>
    { strategy := s, action := a, timeline := nlpTimelines.getD (i % 3) [] })

/-- `nlp_processor.generate_action_plan`: one row per strategy, timeline
assigned from the fixed rotation by position modulo 3; `none` models the
IndexError raised when any strategy has no whitespace-separated word. -/
def generate_action_plan (strategies : List (List Char)) :
    Option (List PlanItem) :=
  sequenceOpt (strategies.enum.map (fun p => planRow p.1 p.2))

end NLP

/-! ## chat_processor -/

/-- The sklearn english stop-word list used by
`TfidfVectorizer(stop_words='english')`. -/
def sklearnStops : List (List Char) :=
  [pstr "a", pstr "about", pstr "above", pstr "across", pstr "after",
   pstr "afterwards", pstr "again", pstr "against", pstr "all",
   pstr "almost", pstr "alone", pstr "along", pstr "already", pstr "also",
   pstr "although", pstr "always", pstr "am", pstr "among", pstr "amongst",
   pstr "amoungst", pstr "amount", pstr "an", pstr "and", pstr "another",
   pstr "any", pstr "anyhow", pstr "anyone", pstr "anything", pstr "anyway",
   pstr "anywhere", pstr "are", pstr "around", pstr "as", pstr "at",
   pstr "back", pstr "be", pstr "became", pstr "because", pstr "become",
   pstr "becomes", pstr "becoming", pstr "been", pstr "before",
   pstr "beforehand", pstr "behind", pstr "being", pstr "below",
   pstr "beside", pstr "besides", pstr "between", pstr "beyond",
   pstr "bill", pstr "both", pstr "bottom", pstr "but", pstr "by",
   pstr "call", pstr "can", pstr "cannot", pstr "cant", pstr "co",
   pstr "con", pstr "could", pstr "couldnt", pstr "cry", pstr "de",
   pstr "describe", pstr "detail", pstr "do", pstr "done", pstr "down",
   pstr "due", pstr "during", pstr "each", pstr "eg", pstr "eight",
   pstr "either", pstr "eleven", pstr "else", pstr "elsewhere",
   pstr "empty", pstr "enough", pstr "etc", pstr "even", pstr "ever",
   pstr "every", pstr "everyone", pstr "everything", pstr "everywhere",
   pstr "except", pstr "few", pstr "fifteen", pstr "fifty", pstr "fill",
   pstr "find", pstr "fire", pstr "first", pstr "five", pstr "for",
   pstr "former", pstr "formerly", pstr "forty", pstr "found", pstr "four",
   pstr "from", pstr "front", pstr "full", pstr "further", pstr "get",
   pstr "give", pstr "go", pstr "had", pstr "has", pstr "hasnt",
   pstr "have", pstr "he", pstr "hence", pstr "her", pstr "here",
   pstr "hereafter", pstr "hereby", pstr "herein", pstr "hereupon",
   pstr "hers", pstr "herself", pstr "him", pstr "himself", pstr "his",
   pstr "how", pstr "however", pstr "hundred", pstr "i", pstr "ie",
   pstr "if", pstr "in", pstr "inc", pstr "indeed", pstr "interest",
   pstr "into", pstr "is", pstr "it", pstr "its", pstr "itself",
   pstr "keep", pstr "last", pstr "latter", pstr "latterly", pstr "least",
   pstr "less", pstr "ltd", pstr "made", pstr "many", pstr "may",
   pstr "me", pstr "meanwhile", pstr "might", pstr "mill", pstr "mine",
   pstr "more", pstr "moreover", pstr "most", pstr "mostly", pstr "move",
   pstr "much", pstr "must", pstr "my", pstr "myself", pstr "name",
   pstr "namely", pstr "neither", pstr "never", pstr "nevertheless",
   pstr "next", pstr "nine", pstr "no", pstr "nobody", pstr "none",
   pstr "noone", pstr "nor", pstr "not", pstr "nothing", pstr "now",
   pstr "nowhere", pstr "of", pstr "off", pstr "often", pstr "on",
   pstr "once", pstr "one", pstr "only", pstr "onto", pstr "or",
   pstr "other", pstr "others", pstr "otherwise", pstr "our", pstr "ours",
   pstr "ourselves", pstr "out", pstr "over", pstr "own", pstr "part",
   pstr "per", pstr "perhaps", pstr "please", pstr "put", pstr "rather",
   pstr "re", pstr "same", pstr "see", pstr "seem", pstr "seemed",
   pstr "seeming", pstr "seems", pstr "serious", pstr "several",
   pstr "she", pstr "should", pstr "show", pstr "side", pstr "since",
   pstr "sincere", pstr "six", pstr "sixty", pstr "so", pstr "some",
   pstr "somehow", pstr "someone", pstr "something", pstr "sometime",
   pstr "sometimes", pstr "somewhere", pstr "still", pstr "such",
   pstr "system", pstr "take", pstr "ten", pstr "than", pstr "that",
   pstr "the", pstr "their", pstr "them", pstr "themselves", pstr "then",
   pstr "thence", pstr "there", pstr "thereafter", pstr "thereby",
   pstr "therefore", pstr "therein", pstr "thereupon", pstr "these",
   pstr "they", pstr "thick", pstr "thin", pstr "third", pstr "this",
   pstr "those", pstr "though", pstr "three", pstr "through",
   pstr "throughout", pstr "thru", pstr "thus", pstr "to", pstr "together",
   pstr "too", pstr "top", pstr "toward", pstr "towards", pstr "twelve",
   pstr "twenty", pstr "two", pstr "un", pstr "under", pstr "until",
   pstr "up", pstr "upon", pstr "us", pstr "very", pstr "via", pstr "was",
   pstr "we", pstr "well", pstr "were", pstr "what", pstr "whatever",
   pstr "when", pstr "whence", pstr "whenever", pstr "where",
   pstr "whereafter", pstr "whereas", pstr "whereby", pstr "wherein",
   pstr "whereupon", pstr "wherever", pstr "whether", pstr "which",
   pstr "while", pstr "whither", pstr "who", pstr "whoever", pstr "whole",
   pstr "whom", pstr "whose", pstr "why", pstr "will", pstr "with",
   pstr "within", pstr "without", pstr "would", pstr "yet", pstr "you",
   pstr "your", pstr "yours", pstr "yourself", pstr "yourselves"]

/-- Split condition of `simple_sentence_splitter`: the regex
`(?<!\w\.\w.)(?<![A-Z][a-z]\.)(?<=\.|\?|\!)\s` matched at a whitespace
character whose four predecessors are `p4 p3 p2 p1` (most recent last). -/
def sssSplitCond (p1 p2 p3 p4 : Option Char) (c : Char) : Bool :=
  isPySpace c &&
  (p1 = some '.' || p1 = some '?' || p1 = some '!') &&
  !(match p4, p3, p2 with
    | some a, some b, some d => isWordChar a && b = '.' && isWordChar d
    | _, _, _ => false) &&
  !(match p3, p2, p1 with
    | some a, some b, some d => a.isUpper && b.isLower && d = '.'
    | _, _, _ => false)

/-- Scanner of `simple_sentence_splitter`: carries the last four consumed
characters and the current segment reversed; the matched whitespace
separator is dropped, as `re.split` does. -/
def sssAux : Option Char → Option Char → Option Char → Option Char →
    List Char → List Char → List (List Char)
  | _, _, _, _, acc, [] => [acc.reverse]
  | p1, p2, p3, p4, acc, c :: cs =>
      if sssSplitCond p1 p2 p3 p4 c then
        acc.reverse :: sssAux (some c) p1 p2 p3 [] cs
      else sssAux (some c) p1 p2 p3 (c :: acc) cs

/-- `chat_processor.simple_sentence_splitter`: regex split on sentence
endings, then keep the stripped segments longer than 5 characters. -/
def simple_sentence_splitter (text : List Char) : List (List Char) :=
  ((sssAux none none none none [] text).map pyStrip).filter
    (fun s => 5 < s.length)

/-- Tokens of one document under `TfidfVectorizer`: lowercase, take
maximal word-character runs of length at least 2 (token pattern
`\w\w+`), drop english stop words. -/
def skTokens (doc : List Char) : List (List Char) :=
  ((splitRuns isWordChar (toLowerStr doc)).filter
    (fun w => 2 ≤ w.length)).filter
    (fun w => decide (w ∉ sklearnStops))

/-- The fitted vocabulary: all distinct tokens of the corpus.  (sklearn
stores it sorted; the order never matters below because all sums range
over the whole vocabulary.) -/
def vocabOf (docs : List (List Char)) : List (List Char) :=
  firstKeys ((docs.map skTokens).join)

/-- Raw term frequency of `t` in document `d`. -/
def tfD (d : List Char) (t : List Char) : ℕ := countOcc t (skTokens d)

/-- Document frequency of `t` in the corpus. -/
def dfD (docs : List (List Char)) (t : List Char) : ℕ :=
  (docs.filter (fun d => decide (0 < tfD d t))).length

/-- Smoothed inverse document frequency, sklearn default:
`ln((1+n)/(1+df)) + 1`. -/
noncomputable def idfD (docs : List (List Char)) (t : List Char) : ℝ :=
  Real.log ((1 + (docs.length : ℝ)) / (1 + (dfD docs t : ℝ))) + 1

/-- Unnormalized tf-idf row of document `d` over the fitted vocabulary. -/
noncomputable def tfidfVec (docs : List (List Char)) (d : List Char) :
    List ℝ :=
  (vocabOf docs).map (fun t => (tfD d t : ℝ) * idfD docs t)

/-- Euclidean norm of a vector. -/
noncomputable def l2norm (v : List ℝ) : ℝ :=
  Real.sqrt ((v.map (fun x => x * x)).sum)

/-- L2 row normalization with sklearn's zero-row guard (a zero row is
left unchanged rather than divided by zero). -/
noncomputable def l2normalize (v : List ℝ) : List ℝ :=
  if l2norm v = 0 then v else v.map (fun x => x / l2norm v)

/-- Dot product of two vectors. -/
noncomputable def dotL (a b : List ℝ) : ℝ :=
  (a.zipWith (fun x y => x * y) b).sum

/-- Cosine similarity of two documents of the fitted corpus, as computed
by the l2-normalized tf-idf rows.  (`cosine_similarity` normalizes the
already unit-or-zero rows again, which is the identity.) -/
noncomputable def cosSimD (docs : List (List Char)) (d1 d2 : List Char) : ℝ :=
  dotL (l2normalize (tfidfVec docs d1)) (l2normalize (tfidfVec docs d2))

/-- `re.sub(r'[^\w\s]', '', question)`: keep word and space characters. -/
def cleanQuestion (q : List Char) : List Char :=
  q.filter (fun c => isWordChar c || isPySpace c)

/-- Fixed message for empty or too-short documents. -/
def msgTooShort : List Char :=
  pstr "The document appears to be empty or too short to analyze."

/-- Fixed message for a symbols-only question. -/
def msgSymbols : List Char :=
  pstr "Please ask a question containing words, not just symbols."

/-- Fixed message when vectorization fails (empty vocabulary). -/
def msgCantAnalyze : List Char :=
  pstr "I couldn\x27t analyze the text structure. It might be too short or generic."

/-- Fixed message when the document produced no sentences. -/
def msgNoRelevant : List Char := pstr "No relevant content found."

/-- Fixed fallback when no sentence beats the 0.1 threshold. -/
def msgNotFound : List Char :=
  pstr "I couldn\x27t find a direct answer in the document. Try asking with different keywords found in the file."

/-- The document sentence list used by `get_document_answer` (the
repository's regex fallback splitter; the primary NLTK tokenizer is an
external library). -/
def chatSents (t : List Char) : List (List Char) :=
  simple_sentence_splitter t

/-- The similarity row: question vector against every document sentence,
over the corpus of sentences plus the appended question. -/
noncomputable def chatSims (q t : List Char) : List ℝ :=
  (chatSents t).map (fun s => cosSimD (chatSents t ++ [q]) q s)

/-- First maximum of a similarity row, as `np.argmax` picks it. -/
noncomputable def maxOf : List ℝ → ℝ
  | [] => 0
  | [x] => x
  | x :: y :: l => max x (maxOf (y :: l))

/-- Index of the first maximum, `np.argmax`. -/
noncomputable def argmaxIdx : List ℝ → ℕ
  | [] => 0
  | [_] => 0
  | x :: y :: l => if x < maxOf (y :: l) then argmaxIdx (y :: l) + 1 else 0

/-- The chosen best index of `get_document_answer`. -/
noncomputable def chatBest (q t : List Char) : ℕ := argmaxIdx (chatSims q t)

/-- `chat_processor.get_document_answer`: reject short documents, then
symbol-only questions, then vectorize sentences plus the question (an
empty vocabulary raises the ValueError branch), then similarities; with
no sentences the row is empty; otherwise answer with the best-matching
sentence if its score exceeds 0.1, else the fixed fallback. -/
noncomputable def get_document_answer (question raw_text : List Char) :
    List Char :=
  if raw_text.length < 10 then msgTooShort
  else if pyStrip (cleanQuestion question) = [] then msgSymbols
  else if vocabOf (chatSents raw_text ++ [question]) = [] then msgCantAnalyze
  else if (chatSims question raw_text).length = 0 then msgNoRelevant
  else if (0.1 : ℝ) <
      (chatSims question raw_text).getD (chatBest question raw_text) 0 then
    (chatSents raw_text ++ [question]).getD (chatBest question raw_text) []
  else msgNotFound

/-! ## theorems: claims C1, C3, C4, C6 -/

/-- C1: `calculate_strategic_scores` computes readiness
`50 + 10*|S| + 5*|O| - 5*|W| - 2*|T|` clamped to [10, 98] and risk
`15*|T| + 5*|W|` clamped to [5, 95]; both always lie in those ranges,
for any input cardinalities. -/
theorem C1_scores_formula_and_bounds (swot : Swot) (intents : List (List Char)) :
    (calculate_strategic_scores swot intents).readiness =
      max 10 (min (50 + (swot.strengths.length : Int) * 10 +
        (swot.opportunities.length : Int) * 5 -
        (swot.weaknesses.length : Int) * 5 -
        (swot.threats.length : Int) * 2) 98) ∧
    (calculate_strategic_scores swot intents).risk =
      max 5 (min ((swot.threats.length : Int) * 15 +
        (swot.weaknesses.length : Int) * 5) 95) ∧
    10 ≤ (calculate_strategic_scores swot intents).readiness ∧
    (calculate_strategic_scores swot intents).readiness ≤ 98 ∧
    5 ≤ (calculate_strategic_scores swot intents).risk ∧
    (calculate_strategic_scores swot intents).risk ≤ 95 := by
  refine ⟨rfl, rfl, ?_, ?_, ?_, ?_⟩ <;>
    simp only [calculate_strategic_scores] <;> omega

/-- Evaluation of the growth branch of `simulate_scenario`. -/
theorem sim_growth_eq (base : BaseScores) :
    simulate_scenario base (pstr "growth") =
      { readiness := clamp598 (base.readiness + 10),
        risk := clamp598 (base.risk + 20),
        revenue := clamp598 85, cost_efficiency := clamp598 40,
        stability := clamp598 45,
        focus := some (pstr "Market Expansion"),
        explanation := some growthExpl, confidence := 85 } := by
  simp only [simulate_scenario]
  rw [if_pos trivial]

/-- Evaluation of the cost branch of `simulate_scenario`. -/
theorem sim_cost_eq (base : BaseScores) :
    simulate_scenario base (pstr "cost") =
      { readiness := clamp598 (base.readiness - 5),
        risk := clamp598 (base.risk - 15),
        revenue := clamp598 45, cost_efficiency := clamp598 90,
        stability := clamp598 75,
        focus := some (pstr "Operational Efficiency"),
        explanation := some costExpl, confidence := 85 } := by
  simp only [simulate_scenario]
  rw [if_neg (by decide), if_pos trivial]

/-- Evaluation of the risk branch of `simulate_scenario`. -/
theorem sim_risk_eq (base : BaseScores) :
    simulate_scenario base (pstr "risk") =
      { readiness := clamp598 (base.readiness - 10),
        risk := clamp598 (base.risk - 30),
        revenue := clamp598 40, cost_efficiency := clamp598 60,
        stability := clamp598 95,
        focus := some (pstr "Risk Mitigation"),
        explanation := some riskExpl, confidence := 85 } := by
  simp only [simulate_scenario]
  rw [if_neg (by decide), if_neg (by decide), if_pos trivial]

/-- The clamp keeps every metric inside [5, 98]. -/
theorem clamp598_bounds (x : Int) : 5 ≤ clamp598 x ∧ clamp598 x ≤ 98 := by
  unfold clamp598; omega

/-- All five metrics of a simulated result lie in [5, 98]. -/
def simMetricsOK (r : SimResult) : Prop :=
  (5 ≤ r.readiness ∧ r.readiness ≤ 98) ∧
  (5 ≤ r.risk ∧ r.risk ≤ 98) ∧
  (5 ≤ r.revenue ∧ r.revenue ≤ 98) ∧
  (5 ≤ r.cost_efficiency ∧ r.cost_efficiency ≤ 98) ∧
  (5 ≤ r.stability ∧ r.stability ≤ 98)

/-- C3: `simulate_scenario` on base readiness 50, risk 20 with scenario
`growth` returns exactly readiness 60, risk 40, revenue 85,
cost efficiency 40, stability 45; and for every base input, each of the
three recognized scenarios clamps all five metrics to [5, 98], carries the
constant confidence 85, and the fixed per-scenario explanation. -/
theorem C3_simulate_growth_fixture_and_bounds :
    simulate_scenario ⟨50, 20⟩ (pstr "growth") =
      { readiness := 60, risk := 40, revenue := 85, cost_efficiency := 40,
        stability := 45, focus := some (pstr "Market Expansion"),
        explanation := some growthExpl, confidence := 85 } ∧
    ∀ base : BaseScores,
      (simMetricsOK (simulate_scenario base (pstr "growth")) ∧
        (simulate_scenario base (pstr "growth")).confidence = 85 ∧
        (simulate_scenario base (pstr "growth")).explanation = some growthExpl) ∧
      (simMetricsOK (simulate_scenario base (pstr "cost")) ∧
        (simulate_scenario base (pstr "cost")).confidence = 85 ∧
        (simulate_scenario base (pstr "cost")).explanation = some costExpl) ∧
      (simMetricsOK (simulate_scenario base (pstr "risk")) ∧
        (simulate_scenario base (pstr "risk")).confidence = 85 ∧
        (simulate_scenario base (pstr "risk")).explanation = some riskExpl) := by
  refine ⟨by decide, fun base => ?_⟩
  rw [sim_growth_eq, sim_cost_eq, sim_risk_eq]
  refine ⟨⟨?_, rfl, rfl⟩, ⟨?_, rfl, rfl⟩, ⟨?_, rfl, rfl⟩⟩ <;>
    exact ⟨clamp598_bounds _, clamp598_bounds _, clamp598_bounds _,
      clamp598_bounds _, clamp598_bounds _⟩

/-- Counterexample for C4: an unrecognized scenario tag neither fails nor
returns the growth payload — at base scores (50, 20) the tag
`expansion` yields a result different from the growth result. -/
theorem C4_counterexample :
    simulate_scenario ⟨50, 20⟩ (pstr "expansion") ≠
      simulate_scenario ⟨50, 20⟩ (pstr "growth") := by
  decide

/-- C4 amended: for every scenario tag outside {growth, cost, risk},
`simulate_scenario` silently returns a third, distinct payload: the base
readiness and risk clamped to [5, 98], all three baseline metrics 50,
confidence 85, and no focus or explanation set. -/
theorem C4_unknown_scenario_baseline (base : BaseScores) (sc : List Char)
    (h1 : sc ≠ pstr "growth") (h2 : sc ≠ pstr "cost") (h3 : sc ≠ pstr "risk") :
    simulate_scenario base sc =
      { readiness := clamp598 base.readiness, risk := clamp598 base.risk,
        revenue := 50, cost_efficiency := 50, stability := 50,
        focus := none, explanation := none, confidence := 85 } := by
  have h50 : clamp598 50 = 50 := by decide
  simp only [simulate_scenario, if_neg h1, if_neg h2, if_neg h3, h50]

/-- Witness for C4 amended: concrete evaluation at tag `expansion`. -/
theorem C4_witness :
    simulate_scenario ⟨50, 20⟩ (pstr "expansion") =
      { readiness := 50, risk := 20, revenue := 50, cost_efficiency := 50,
        stability := 50, focus := none, explanation := none,
        confidence := 85 } := by
  have h := C4_unknown_scenario_baseline ⟨50, 20⟩ (pstr "expansion")
    (by decide) (by decide) (by decide)
  exact h.trans (by decide)

/-- C6 (code bug): `clean_text` does not establish the ExtractedText
invariant.  Replacing non-ASCII runs happens after whitespace collapsing,
so the input `aé b` yields `a  b` with two consecutive spaces, and the
ASCII control character 0x01 — neither whitespace nor non-ASCII — passes
through untouched in `a\x01b`. -/
theorem C6_clean_text_violates_invariant :
    clean_text (pstr "aé b") = pstr "a  b" ∧
    clean_text (pstr "a\x01b") = pstr "a\x01b" := by
  constructor <;> decide

/-! ## lemmas on sorting, counting and key extraction -/

/-- Inserting keeps the same elements, as a permutation. -/
theorem insertDesc_perm (k : α → ℕ) (a : α) :
    ∀ l : List α, List.Perm (insertDesc k a l) (a :: l)
  | [] => List.Perm.refl _
  | b :: bs => by
      simp only [insertDesc]
      split
      · exact List.Perm.refl _
      · exact ((insertDesc_perm k a bs).cons b).trans (List.Perm.swap a b bs)

/-- The stable descending sort is a permutation of its input. -/
theorem sortDesc_perm (k : α → ℕ) : ∀ l : List α, List.Perm (sortDesc k l) l
  | [] => List.Perm.refl _
  | x :: xs =>
      (insertDesc_perm k x (sortDesc k xs)).trans ((sortDesc_perm k xs).cons x)

/-- Inserting preserves the descending-key invariant. -/
theorem insertDesc_pairwise (k : α → ℕ) (a : α) {l : List α}
    (h : l.Pairwise (fun x y => k y ≤ k x)) :
    (insertDesc k a l).Pairwise (fun x y => k y ≤ k x) := by
  induction l with
  | nil => simp [insertDesc]
  | cons b bs ih =>
      simp only [insertDesc]
      by_cases hlt : k b < k a
      · rw [if_pos hlt]
        refine List.pairwise_cons.2 ⟨?_, h⟩
        intro y hy
        rcases List.mem_cons.1 hy with hy | hy
        · exact hy ▸ Nat.le_of_lt hlt
        · exact Nat.le_trans (List.rel_of_pairwise_cons h hy) (Nat.le_of_lt hlt)
      · rw [if_neg hlt]
        refine List.pairwise_cons.2 ⟨?_, ih (List.Pairwise.of_cons h)⟩
        intro y hy
        rcases List.mem_cons.1 ((insertDesc_perm k a bs).mem_iff.1 hy) with
          hy | hy
        · exact hy ▸ Nat.le_of_not_lt hlt
        · exact List.rel_of_pairwise_cons h hy

/-- The stable descending sort is sorted by non-increasing key. -/
theorem sortDesc_pairwise (k : α → ℕ) :
    ∀ l : List α, (sortDesc k l).Pairwise (fun x y => k y ≤ k x)
  | [] => List.Pairwise.nil
  | x :: xs => insertDesc_pairwise k x (sortDesc_pairwise k xs)

/-- Everything produced by `firstKeysAux` comes from the input list. -/
theorem firstKeysAux_subset [DecidableEq α] :
    ∀ (l : List α) (seen : List α) (y : α),
      y ∈ firstKeysAux seen l → y ∈ l
  | [], _, _, h => by simp [firstKeysAux] at h
  | x :: xs, seen, y, h => by
      simp only [firstKeysAux] at h
      split at h
      · exact List.mem_cons_of_mem x (firstKeysAux_subset xs seen y h)
      · rcases List.mem_cons.1 h with h | h
        · exact h ▸ List.mem_cons_self x xs
        · exact List.mem_cons_of_mem x (firstKeysAux_subset xs (x :: seen) y h)

/-- `firstKeysAux` never emits an already-seen key. -/
theorem firstKeysAux_not_seen [DecidableEq α] :
    ∀ (l : List α) (seen : List α) (y : α),
      y ∈ firstKeysAux seen l → y ∉ seen
  | [], _, _, h => by simp [firstKeysAux] at h
  | x :: xs, seen, y, h => by
      simp only [firstKeysAux] at h
      split at h
      · exact firstKeysAux_not_seen xs seen y h
      · rcases List.mem_cons.1 h with h | h
        · subst h; assumption
        · intro hy
          exact firstKeysAux_not_seen xs (x :: seen) y h
            (List.mem_cons_of_mem x hy)

/-- `firstKeysAux` emits each key at most once. -/
theorem firstKeysAux_nodup [DecidableEq α] :
    ∀ (l : List α) (seen : List α), (firstKeysAux seen l).Nodup
  | [], _ => List.Pairwise.nil
  | x :: xs, seen => by
      simp only [firstKeysAux]
      split
      · exact firstKeysAux_nodup xs seen
      · refine List.nodup_cons.2 ⟨?_, firstKeysAux_nodup xs (x :: seen)⟩
        intro hx
        exact firstKeysAux_not_seen xs (x :: seen) x hx
          (List.mem_cons_self x seen)

/-- The distinct keys of a list, with no duplicates. -/
theorem firstKeys_nodup [DecidableEq α] (l : List α) : (firstKeys l).Nodup :=
  firstKeysAux_nodup l []

/-- Every Counter entry records the count of its key. -/
theorem countsOf_snd [DecidableEq α] (l : List α) (p : α × ℕ)
    (hp : p ∈ countsOf l) : p.2 = countOcc p.1 l := by
  rcases List.mem_map.1 hp with ⟨k, _, rfl⟩
  rfl

/-- The keys of the Counter entries are the distinct input keys. -/
theorem countsOf_map_fst [DecidableEq α] (l : List α) :
    (countsOf l).map Prod.fst = firstKeys l := by
  have h : (Prod.fst ∘ fun k : α => (k, countOcc k l)) = id := rfl
  rw [countsOf, List.map_map, h, List.map_id]

/-- The `n` most common keys number at most `n`. -/
theorem mostCommon_fst_length [DecidableEq α] (l : List α) (n : ℕ) :
    ((mostCommon l n).map Prod.fst).length ≤ n := by
  simp only [mostCommon, List.length_map, List.length_take]
  exact Nat.min_le_left _ _

/-- The `n` most common keys are pairwise distinct. -/
theorem mostCommon_fst_nodup [DecidableEq α] (l : List α) (n : ℕ) :
    ((mostCommon l n).map Prod.fst).Nodup := by
  have hperm : List.Perm
      ((sortDesc (fun p : α × ℕ => p.2) (countsOf l)).map Prod.fst)
      ((countsOf l).map Prod.fst) :=
    (sortDesc_perm (fun p : α × ℕ => p.2) (countsOf l)).map Prod.fst
  have hnodup :
      ((sortDesc (fun p : α × ℕ => p.2) (countsOf l)).map Prod.fst).Nodup := by
    rw [hperm.nodup_iff, countsOf_map_fst]
    exact firstKeys_nodup l
  rw [mostCommon, List.map_take]
  exact hnodup.sublist (List.take_sublist n _)

/-- The `n` most common keys come in non-increasing count order. -/
theorem mostCommon_fst_sorted [DecidableEq α] (l : List α) (n : ℕ) :
    ((mostCommon l n).map Prod.fst).Pairwise
      (fun a b => countOcc b l ≤ countOcc a l) := by
  have hs := sortDesc_pairwise (fun p : α × ℕ => p.2) (countsOf l)
  have hs2 : (sortDesc (fun p : α × ℕ => p.2) (countsOf l)).Pairwise
      (fun p q => countOcc q.1 l ≤ countOcc p.1 l) := by
    refine hs.imp_of_mem ?_
    intro p q hp hq hle
    have hp2 := countsOf_snd l p
      ((sortDesc_perm (fun p : α × ℕ => p.2) (countsOf l)).mem_iff.1 hp)
    have hq2 := countsOf_snd l q
      ((sortDesc_perm (fun p : α × ℕ => p.2) (countsOf l)).mem_iff.1 hq)
    rw [← hp2, ← hq2]
    exact hle
  have ht : ((sortDesc (fun p : α × ℕ => p.2) (countsOf l)).take n).Pairwise
      (fun p q => countOcc q.1 l ≤ countOcc p.1 l) :=
    hs2.sublist (List.take_sublist n _)
  rw [mostCommon]
  exact List.pairwise_map.2 ht

/-! ## claim theorems: C2, C5, C9 -/

/-- C2: `extract_key_phrases` returns the single-term list first, then the
bigram list; the singles are at most `top_n` distinct terms in
non-increasing frequency order, and the bigrams are at most
`top_n / 2` keys in non-increasing frequency order. -/
theorem C2_keywords_shape_and_order (raw : List (List Char)) (top_n : ℕ) :
    extract_key_phrases raw top_n = kpSingles raw top_n ++ kpBigramStrs raw top_n ∧
    (kpSingles raw top_n).length ≤ top_n ∧
    (kpBigramStrs raw top_n).length ≤ top_n / 2 ∧
    (kpSingles raw top_n).Nodup ∧
    (kpSingles raw top_n).Pairwise
      (fun a b => countOcc b (keyTokens raw) ≤ countOcc a (keyTokens raw)) ∧
    (kpBigramPairs raw top_n).Pairwise
      (fun a b => countOcc b (pairsOf (keyTokens raw)) ≤
        countOcc a (pairsOf (keyTokens raw))) ∧
    kpBigramStrs raw top_n =
      (kpBigramPairs raw top_n).map (fun p => p.1 ++ ' ' :: p.2) := by
  refine ⟨rfl, ?_, ?_, ?_, ?_, ?_, rfl⟩
  · exact Nat.le_trans (mostCommon_fst_length _ _) (Nat.div_le_self top_n 2)
  · calc (kpBigramStrs raw top_n).length
        = (kpBigramPairs raw top_n).length := by
          simp [kpBigramStrs]
      _ ≤ top_n / 2 := mostCommon_fst_length _ _
  · exact mostCommon_fst_nodup _ _
  · exact mostCommon_fst_sorted _ _
  · exact mostCommon_fst_sorted _ _

/-- A category with the two-element default is never empty; a matched
category is non-empty by the fallback guard. -/
theorem swotFallback_ne_nil (l : List (List Char)) (a b : List Char) :
    swotFallback l [a, b] ≠ [] := by
  unfold swotFallback
  split
  · simp
  · assumption

/-- An unmatched category receives exactly the default list. -/
theorem swotFallback_of_empty (l d : List (List Char)) (h : l = []) :
    swotFallback l d = d := by
  simp [swotFallback, h]

/-- Counterexample for C5: on the empty text no strength keyword matches,
and the strengths category receives the two-sentence default list — not
exactly one default sentence. -/
theorem C5_counterexample :
    (generate_swot (pstr "")).strengths = defaultStrengths ∧
    (generate_swot (pstr "")).strengths.length = 2 := by
  constructor <;> decide

/-- C5 amended: `generate_swot` never returns an empty category list, and
each category with no keyword match receives the fixed two-sentence
default list of that category. -/
theorem C5_swot_nonempty_defaults (text : List Char) :
    (generate_swot text).strengths ≠ [] ∧
    (generate_swot text).weaknesses ≠ [] ∧
    (generate_swot text).opportunities ≠ [] ∧
    (generate_swot text).threats ≠ [] ∧
    (swotStrengthsRaw (toLowerStr text) = [] →
      (generate_swot text).strengths = defaultStrengths) ∧
    (swotWeaknessesRaw (toLowerStr text) = [] →
      (generate_swot text).weaknesses = defaultWeaknesses) ∧
    (swotOpportunitiesRaw (toLowerStr text) = [] →
      (generate_swot text).opportunities = defaultOpportunities) ∧
    (swotThreatsRaw (toLowerStr text) = [] →
      (generate_swot text).threats = defaultThreats) :=
  ⟨swotFallback_ne_nil _ _ _, swotFallback_ne_nil _ _ _,
   swotFallback_ne_nil _ _ _, swotFallback_ne_nil _ _ _,
   fun h => swotFallback_of_empty _ _ h, fun h => swotFallback_of_empty _ _ h,
   fun h => swotFallback_of_empty _ _ h, fun h => swotFallback_of_empty _ _ h⟩

/-- Witness for C5 amended: concrete evaluation on a keyword-free text. -/
theorem C5_witness :
    (generate_swot (pstr "quarterly report")).strengths ≠ [] ∧
    (generate_swot (pstr "quarterly report")).strengths = defaultStrengths :=
  ⟨(C5_swot_nonempty_defaults (pstr "quarterly report")).1,
   (C5_swot_nonempty_defaults (pstr "quarterly report")).2.2.2.2.1 (by decide)⟩

/-- Counterexample for C9: the action-plan function the application
imports (`strategy_generator.generate_action_plan`) assigns the entry at
position 1 the constant timeline string, not the second element of the
(Immediate, Short Term, Long Term) rotation. -/
theorem C9_counterexample :
    ((SG.generate_action_plan
        [pstr "Launch campaign", pstr "Optimize flow"]).get? 1).map
      (fun p => p.timeline) = some sgTimeline ∧
    sgTimeline ≠ nlpTimelines.getD (1 % 3) [] := by
  constructor <;> decide

/-- A sequenced list with a failed element fails as a whole. -/
theorem sequenceOpt_none {α : Type} :
    ∀ l : List (Option α), none ∈ l → sequenceOpt l = none
  | [], h => absurd h (List.not_mem_nil _)
  | x :: xs, h => by
      cases x with
      | none => rfl
      | some v =>
          have hxs : none ∈ xs := by
            rcases List.mem_cons.1 h with h | h
            · exact absurd h (by simp)
            · exact h
          simp [sequenceOpt, sequenceOpt_none xs hxs]

/-- When every strategy has a first word, the sequenced rows succeed and
produce exactly the enumerated plan entries. -/
theorem nlp_plan_enumFrom :
    ∀ (ss : List (List Char)) (n : ℕ), (∀ s ∈ ss, pySplit s ≠ []) →
      sequenceOpt ((List.enumFrom n ss).map (fun p => NLP.planRow p.1 p.2)) =
        some ((List.enumFrom n ss).map (fun p =>
          { strategy := p.2,
            action := pstr "Initiate project team and allocate budget for " ++
              toLowerStr ((pySplit p.2).headD []) ++ pstr " phase.",
            timeline := nlpTimelines.getD (p.1 % 3) [] }))
  | [], _, _ => rfl
  | s :: ss, n, hw => by
      have hs := hw s (List.mem_cons_self s ss)
      have ih := nlp_plan_enumFrom ss (n + 1)
        (fun x hx => hw x (List.mem_cons_of_mem s hx))
      cases hps : pySplit s with
      | nil => exact absurd hps hs
      | cons w ws =>
          have hrow : NLP.planRow n s = some
              { strategy := s,
                action := pstr "Initiate project team and allocate budget for " ++
                  toLowerStr w ++ pstr " phase.",
                timeline := nlpTimelines.getD (n % 3) [] } := by
            simp [NLP.planRow, nlpAction, hps]
          have henum : List.enumFrom n (s :: ss) =
              (n, s) :: List.enumFrom (n + 1) ss := rfl
          rw [henum, List.map_cons, List.map_cons, hrow]
          simp only [sequenceOpt]
          rw [ih]
          simp [hps]

/-- C9 amended: when every strategy contains a whitespace-separated word,
`nlp_processor.generate_action_plan` returns one entry per strategy in
order with the timeline taken from the fixed rotation at index i mod 3;
when some strategy has no word it fails (the Python IndexError).
`strategy_generator.generate_action_plan` — the one the application
imports — returns one entry per strategy in order with one constant
timeline string for every entry. -/
theorem C9_action_plan_timelines (ss : List (List Char)) (i : ℕ) :
    ((∀ s ∈ ss, pySplit s ≠ []) →
      ∃ plan, NLP.generate_action_plan ss = some plan ∧
        plan.length = ss.length ∧
        plan.get? i = (ss.get? i).map (fun s =>
          { strategy := s,
            action := pstr "Initiate project team and allocate budget for " ++
              toLowerStr ((pySplit s).headD []) ++ pstr " phase.",
            timeline := nlpTimelines.getD (i % 3) [] })) ∧
    ((∃ s ∈ ss, pySplit s = []) → NLP.generate_action_plan ss = none) ∧
    (SG.generate_action_plan ss).get? i = (ss.get? i).map (fun s =>
      { strategy := s, action := pstr "Implement initiative for " ++ s,
        timeline := sgTimeline }) ∧
    (SG.generate_action_plan ss).length = ss.length := by
  refine ⟨?_, ?_, ?_, ?_⟩
  · intro hw
    refine ⟨ss.enum.map (fun p =>
      { strategy := p.2,
        action := pstr "Initiate project team and allocate budget for " ++
          toLowerStr ((pySplit p.2).headD []) ++ pstr " phase.",
        timeline := nlpTimelines.getD (p.1 % 3) [] }), ?_, ?_, ?_⟩
    · exact nlp_plan_enumFrom ss 0 hw
    · simp
    · simp only [List.get?_map, List.get?_enum, Option.map_map]
      rfl
  · intro hfail
    obtain ⟨s, hs, hps⟩ := hfail
    obtain ⟨j, hj⟩ := List.mem_iff_get?.1 hs
    have hrow : NLP.planRow j s = none := by
      simp [NLP.planRow, nlpAction, hps]
    have hget : (ss.enum.map (fun p => NLP.planRow p.1 p.2)).get? j =
        some (NLP.planRow j s) := by
      rw [List.get?_map, List.get?_enum, hj]
      rfl
    exact sequenceOpt_none _ (hrow ▸ List.get?_mem hget)
  · simp [SG.generate_action_plan, List.get?_map]
  · simp [SG.generate_action_plan]

/-- Witness for C9 amended: a concrete two-strategy plan succeeds with
the rotated timelines, and a whitespace-only strategy makes the plan
fail. -/
theorem C9_witness :
    (∃ plan, NLP.generate_action_plan
        [pstr "Launch campaign", pstr "Optimize flow"] = some plan ∧
      plan.length = 2 ∧
      plan.get? 1 = some
        { strategy := pstr "Optimize flow",
          action := pstr "Initiate project team and allocate budget for optimize phase.",
          timeline := pstr "Short Term (3-6 Months)" }) ∧
    NLP.generate_action_plan [pstr "   "] = none := by
  constructor
  · obtain ⟨plan, h1, h2, h3⟩ :=
      (C9_action_plan_timelines [pstr "Launch campaign", pstr "Optimize flow"]
        1).1 (by decide)
    refine ⟨plan, h1, h2, ?_⟩
    rw [h3]
    rfl
  · exact (C9_action_plan_timelines [pstr "   "] 0).2.1
      ⟨pstr "   ", by decide, by decide⟩

/-! ## lemmas on argmax and similarities -/

/-- The argmax of a non-empty row is a valid index. -/
theorem argmaxIdx_lt : ∀ l : List ℝ, l ≠ [] → argmaxIdx l < l.length
  | [], h => absurd rfl h
  | [_], _ => by simp [argmaxIdx]
  | x :: y :: l, _ => by
      simp only [argmaxIdx]
      split
      · have := argmaxIdx_lt (y :: l) (by simp)
        simp only [List.length_cons] at this ⊢
        omega
      · simp [List.length_cons]

/-- The entry at the argmax is the maximum of the row. -/
theorem argmaxIdx_getD : ∀ l : List ℝ, l ≠ [] →
    l.getD (argmaxIdx l) 0 = maxOf l
  | [], h => absurd rfl h
  | [_], _ => by simp [argmaxIdx, maxOf]
  | x :: y :: l, _ => by
      simp only [argmaxIdx, maxOf]
      split
      · rw [List.getD_cons_succ, argmaxIdx_getD (y :: l) (by simp)]
        next h => exact (max_eq_right (le_of_lt h)).symm
      · rw [List.getD_cons_zero]
        next h => exact (max_eq_left (not_lt.1 h)).symm

/-- Every entry of a row is at most its maximum. -/
theorem getD_le_maxOf : ∀ (l : List ℝ) (j : ℕ), j < l.length →
    l.getD j 0 ≤ maxOf l
  | [], j, h => absurd h (by simp)
  | [x], j, h => by
      have hj : j = 0 := by simpa using Nat.lt_one_iff.1 (by simpa using h)
      subst hj
      simp [maxOf]
  | x :: y :: l, j, h => by
      cases j with
      | zero =>
          show x ≤ maxOf (x :: y :: l)
          simp only [maxOf]
          exact le_max_left _ _
      | succ j =>
          rw [List.getD_cons_succ]
          have hj : j < (y :: l).length := by
            simpa [Nat.succ_lt_succ_iff] using h
          calc (y :: l).getD j 0 ≤ maxOf (y :: l) := getD_le_maxOf (y :: l) j hj
            _ ≤ maxOf (x :: y :: l) := by
                simp only [maxOf]
                exact le_max_right _ _

/-- A dot product over a shared index list vanishes if at every index one
side is zero. -/
theorem dotL_map_zero (A B : List Char → ℝ) :
    ∀ v : List (List Char), (∀ t ∈ v, A t = 0 ∨ B t = 0) →
      dotL (v.map A) (v.map B) = 0
  | [], _ => by simp [dotL]
  | x :: xs, h => by
      have hx := h x (List.mem_cons_self x xs)
      have hxs := dotL_map_zero A B xs
        (fun t ht => h t (List.mem_cons_of_mem x ht))
      simp only [List.map_cons, dotL, List.zipWith_cons_cons,
        List.sum_cons] at hxs ⊢
      rcases hx with hx | hx <;> rw [hx] <;>
        simp only [zero_mul, mul_zero, zero_add] <;> exact hxs

/-- Row normalization only rescales: it multiplies every component by one
common factor. -/
theorem l2normalize_scale (w : List ℝ) :
    ∃ c : ℝ, l2normalize w = w.map (fun x => x * c) := by
  unfold l2normalize
  split
  · exact ⟨1, by simp⟩
  · exact ⟨(l2norm w)⁻¹, by simp [div_eq_mul_inv]⟩

/-- If the two documents share no vocabulary term, their cosine
similarity is exactly zero. -/
theorem cosSim_zero (docs : List (List Char)) (d1 d2 : List Char)
    (h : ∀ t ∈ vocabOf docs, tfD d1 t = 0 ∨ tfD d2 t = 0) :
    cosSimD docs d1 d2 = 0 := by
  obtain ⟨c1, hc1⟩ := l2normalize_scale (tfidfVec docs d1)
  obtain ⟨c2, hc2⟩ := l2normalize_scale (tfidfVec docs d2)
  rw [cosSimD, hc1, hc2, tfidfVec, tfidfVec, List.map_map, List.map_map]
  refine dotL_map_zero _ _ (vocabOf docs) ?_
  intro t ht
  rcases h t ht with h0 | h0
  · left; simp [Function.comp, h0]
  · right; simp [Function.comp, h0]

/-! ## claim theorems: C7, C8, C10 -/

/-- C7: for every document shorter than 10 characters (including the
empty string) and every question, the Q&A answer is the fixed
too-short message; the question has no effect. -/
theorem C7_short_document_fixed_message (q t : List Char)
    (h : t.length < 10) :
    get_document_answer q t = msgTooShort := by
  unfold get_document_answer
  rw [if_pos h]

/-- Witness for C7: concrete short document. -/
theorem C7_witness :
    get_document_answer (pstr "what is this about?") (pstr "tiny") =
      msgTooShort :=
  C7_short_document_fixed_message _ _ (by decide)

/-- C8: on a document of at least 10 characters whose splitter yields at
least one sentence, a question with word characters, and a non-empty
vocabulary, the answer is the sentence at the similarity argmax — which
dominates every similarity — whenever the maximum exceeds 0.1, and the
fixed could-not-find fallback otherwise; in particular the fallback is
returned when the question shares no vocabulary token with any
sentence. -/
theorem C8_best_match_threshold (q t : List Char)
    (h1 : 10 ≤ t.length)
    (h2 : pyStrip (cleanQuestion q) ≠ [])
    (h3 : chatSents t ≠ [])
    (h4 : vocabOf (chatSents t ++ [q]) ≠ []) :
    ((0.1 : ℝ) < (chatSims q t).getD (chatBest q t) 0 →
      get_document_answer q t = (chatSents t).getD (chatBest q t) [] ∧
      ∀ j, j < (chatSims q t).length →
        (chatSims q t).getD j 0 ≤ (chatSims q t).getD (chatBest q t) 0) ∧
    ((chatSims q t).getD (chatBest q t) 0 ≤ 0.1 →
      get_document_answer q t = msgNotFound) ∧
    ((∀ s ∈ chatSents t, ∀ term ∈ vocabOf (chatSents t ++ [q]),
        tfD q term = 0 ∨ tfD s term = 0) →
      get_document_answer q t = msgNotFound) := by
  have hlen : ¬ t.length < 10 := by omega
  have hsl : (chatSims q t).length = (chatSents t).length := by
    simp [chatSims]
  have hne : chatSims q t ≠ [] := by
    intro hnil
    exact h3 (List.length_eq_zero.1 (by rw [← hsl, hnil]; rfl))
  have hlne : ¬ (chatSims q t).length = 0 := by
    intro h0; exact hne (List.length_eq_zero.1 h0)
  have hb : chatBest q t < (chatSims q t).length := argmaxIdx_lt _ hne
  have key : get_document_answer q t =
      (if (0.1 : ℝ) < (chatSims q t).getD (chatBest q t) 0 then
        (chatSents t ++ [q]).getD (chatBest q t) []
      else msgNotFound) := by
    unfold get_document_answer
    rw [if_neg hlen, if_neg h2, if_neg h4, if_neg hlne]
  refine ⟨?_, ?_, ?_⟩
  · intro hgt
    rw [key, if_pos hgt]
    constructor
    · have hb2 : chatBest q t < (chatSents t).length := by
        rw [← hsl]; exact hb
      simp only [List.getD_eq_getElem?_getD]
      rw [List.getElem?_append_left hb2]
    · intro j hj
      have hmax : (chatSims q t).getD (chatBest q t) 0 =
          maxOf (chatSims q t) := argmaxIdx_getD _ hne
      rw [hmax]
      exact getD_le_maxOf _ j hj
  · intro hle
    rw [key, if_neg (not_lt.2 hle)]
  · intro hdis
    have hzero : ∀ x ∈ chatSims q t, x = 0 := by
      intro x hx
      simp only [chatSims] at hx
      rcases List.mem_map.1 hx with ⟨s, hs, rfl⟩
      exact cosSim_zero _ _ _ (fun term hterm => hdis s hs term hterm)
    have hgd : (chatSims q t).getD (chatBest q t) 0 =
        (chatSims q t)[chatBest q t] := by
      simp [List.getD_eq_getElem?_getD, List.getElem?_eq_getElem hb]
    have hble : (chatSims q t).getD (chatBest q t) 0 ≤ 0.1 := by
      rw [hgd, hzero _ (List.getElem_mem hb)]
      norm_num
    rw [key, if_neg (not_lt.2 hble)]

/-- Witness for C8: a question sharing no vocabulary token with the only
document sentence gets the fixed could-not-find fallback. -/
theorem C8_witness :
    get_document_answer (pstr "zzqq yyxx")
      (pstr "alpha beta gamma delta.") = msgNotFound := by
  have h := C8_best_match_threshold (pstr "zzqq yyxx")
    (pstr "alpha beta gamma delta.") (by decide) (by decide) (by decide)
    (by decide)
  exact h.2.2 (by decide)

/-- C10: for a document of at least 10 characters, the local Q&A answer
is one of the four fixed canned messages or a verbatim sentence from the
document's sentence split — never the appended question. -/
theorem C10_answer_canned_or_sentence (q t : List Char)
    (h1 : 10 ≤ t.length) :
    get_document_answer q t ∈
      [msgSymbols, msgCantAnalyze, msgNoRelevant, msgNotFound] ∨
    get_document_answer q t ∈ chatSents t := by
  have hlen : ¬ t.length < 10 := by omega
  unfold get_document_answer
  rw [if_neg hlen]
  by_cases h2 : pyStrip (cleanQuestion q) = []
  · rw [if_pos h2]; left; simp
  rw [if_neg h2]
  by_cases h4 : vocabOf (chatSents t ++ [q]) = []
  · rw [if_pos h4]; left; simp
  rw [if_neg h4]
  by_cases h5 : (chatSims q t).length = 0
  · rw [if_pos h5]; left; simp
  rw [if_neg h5]
  by_cases h6 : (0.1 : ℝ) < (chatSims q t).getD (chatBest q t) 0
  · rw [if_pos h6]
    right
    have hne : chatSims q t ≠ [] := fun hnil => h5 (by rw [hnil]; rfl)
    have hb : chatBest q t < (chatSims q t).length := argmaxIdx_lt _ hne
    have hsl : (chatSims q t).length = (chatSents t).length := by
      simp [chatSims]
    have hb2 : chatBest q t < (chatSents t).length := by
      rw [← hsl]; exact hb
    have hgd : (chatSents t ++ [q]).getD (chatBest q t) [] =
        (chatSents t)[chatBest q t] := by
      simp [List.getD_eq_getElem?_getD, List.getElem?_append_left hb2,
        List.getElem?_eq_getElem hb2]
    rw [hgd]
    exact List.getElem_mem hb2
  · rw [if_neg h6]; left; simp

/-- Witness for C10: concrete evaluation of the disjunction. -/
theorem C10_witness :
    get_document_answer (pstr "summary please")
      (pstr "alpha beta gamma delta.") ∈
      [msgSymbols, msgCantAnalyze, msgNoRelevant, msgNotFound] ∨
    get_document_answer (pstr "summary please")
      (pstr "alpha beta gamma delta.") ∈
      chatSents (pstr "alpha beta gamma delta.") :=
  C10_answer_canned_or_sentence _ _ (by decide)
